import Mathlib

/-!
Verification of the streaming connection manager of the tradesmartapi-js
repository (class TradeSmartWS in the websocket source file).

The JavaScript class is shallowly embedded as a record of its private fields
together with one Lean function per method or event handler.  Event handlers
(onopen, onclose, onmessage) and the heartbeat interval callback are pure
functions from the manager state (and, for onmessage, the inbound message) to
the successor state plus the observable effects: the outbound frames sent on
the socket and, for connect, whether a new transport object was created.

Timers: the source schedules reconnects with setTimeout and never stores the
returned handle, so no method of the class can cancel a scheduled reconnect.
The state therefore carries a count of pending reconnect timer callbacks;
scheduling increments it, a timer firing consumes one, and no operation of the
class removes one in any other way.

JavaScript callback slots: the fields onDataCallback and onOrderCallback are
declared without an initializer, so their initial JS value is undefined, not
null; registering a callback stores a function.  The slot is modelled by a
three valued type so that the checks written in the source, a strict
inequality against null in the data branch and a truthiness test in the order
branch, can be translated exactly.
-/

namespace TradeSmartWS

/-- Ready states of a ws WebSocket object. -/
inductive ReadyState
  | CONNECTING
  | OPEN
  | CLOSING
  | CLOSED
deriving DecidableEq, Repr, BEq

/-- Value held in a JS callback slot: undefined (never assigned), null, or a
function. -/
inductive CbSlot
  | undef
  | null
  | func
deriving DecidableEq, Repr, BEq

/-- JS truthiness of a callback slot: only a function is truthy. -/
def CbSlot.truthy : CbSlot → Bool
  | CbSlot.func => true
  | _ => false

/-- An instrument record as produced by the instrument utilities: the two
fields the websocket class reads. -/
structure Instrument where
  Exchange : String
  Token : String
deriving DecidableEq, Repr

/-- Outbound wire frames, one constructor per JSON shape the class sends:
the auth frame with discriminant c, the heartbeat frame with discriminant h,
and the subscribe frame with discriminant t and key string k. -/
inductive OutFrame
  | auth (uid actid susertoken : String)
  | heartbeat
  | subscribeFrame (k : String)
deriving DecidableEq, Repr

/-- The private fields of a TradeSmartWS instance, plus the count of pending
reconnect setTimeout callbacks (the source keeps no handle to them).  The
socket field is none when the JS field is null, otherwise it records the
transport ready state.  heartBeatOn records whether the heartbeat interval is
set. -/
structure WSState where
  socket : Option ReadyState
  reconnectInterval : Nat
  reconnectAttempts : Nat
  currentReconnectAttempts : Nat
  heartBeatOn : Bool
  heartBeatDuration : Nat
  debug : Bool
  uid : String
  actid : String
  susertoken : String
  socketConnecting : Bool
  disconnectedManually : Bool
  onDataCallback : CbSlot
  onOrderCallback : CbSlot
  pendingReconnectTimers : Nat
deriving DecidableEq, Repr

/-- Constructor: copies uid, actid and susertoken from the api object; all
other fields keep their declared initial values. -/
def mkTradeSmartWS (uid actid susertoken : String) : WSState :=
  { socket := none
    reconnectInterval := 10000
    reconnectAttempts := 200
    currentReconnectAttempts := 0
    heartBeatOn := false
    heartBeatDuration := 3000
    debug := false
    uid := uid
    actid := actid
    susertoken := susertoken
    socketConnecting := false
    disconnectedManually := false
    onDataCallback := CbSlot.undef
    onOrderCallback := CbSlot.undef
    pendingReconnectTimers := 0 }

/-- Method setHeartBeat: installs the heartbeat interval. -/
def setHeartBeat (s : WSState) : WSState :=
  { s with heartBeatOn := true }

/-- Method clearHeartBeat: clears the heartbeat interval if set. -/
def clearHeartBeat (s : WSState) : WSState :=
  { s with heartBeatOn := false }

/-- One firing of the heartbeat interval callback: it sends the heartbeat
frame only when the socket is non null and its readyState is OPEN; the
callback only runs at all while the interval is installed. -/
def heartBeatTick (s : WSState) : List OutFrame :=
  if s.heartBeatOn then
    match s.socket with
    | some rs => if rs = ReadyState.OPEN then [OutFrame.heartbeat] else []
    | none => []
  else []

/-- Result of the synchronous part of connect: the updated state and whether
a new WebSocket transport object was constructed. -/
structure ConnectResult where
  state : WSState
  created : Bool
deriving DecidableEq, Repr

/-- Method connect, synchronous part: returns at once when a connect is
already in flight; otherwise sets the in flight flag, clears the manual
disconnect flag and constructs a new WebSocket (state CONNECTING). -/
def connect (s : WSState) : ConnectResult :=
  if s.socketConnecting then ⟨s, false⟩
  else
    ⟨{ s with socketConnecting := true
              disconnectedManually := false
              socket := some ReadyState.CONNECTING }, true⟩

/-- Result of the socket onopen handler: successor state, frames sent, and
whether the pending connect promise was resolved. -/
structure OpenResult where
  state : WSState
  frames : List OutFrame
  resolved : Bool
deriving DecidableEq, Repr

/-- Handler socket.onopen: resets the reconnect counter to 0, installs the
heartbeat, sends the auth frame built from the stored credentials and
resolves the connect promise. -/
def onopen (s : WSState) : OpenResult :=
  let s1 := setHeartBeat { s with currentReconnectAttempts := 0 }
  ⟨s1, [OutFrame.auth s1.uid s1.actid s1.susertoken], true⟩

/-- Private method attemptReconnect: when the counter is below the configured
maximum, increments it and schedules a connect via setTimeout (one more
pending timer); otherwise only logs. -/
def attemptReconnect (s : WSState) : WSState :=
  if s.currentReconnectAttempts < s.reconnectAttempts then
    { s with currentReconnectAttempts := s.currentReconnectAttempts + 1
             pendingReconnectTimers := s.pendingReconnectTimers + 1 }
  else s

/-- Handler socket.onclose: clears the heartbeat and, unless the manual
disconnect flag is set, runs attemptReconnect. -/
def onclose (s : WSState) : WSState :=
  let s1 := clearHeartBeat s
  if s1.disconnectedManually then s1 else attemptReconnect s1

/-- Method disconnect: when a socket reference is held, sets the manual
disconnect flag, clears the heartbeat, closes the socket and nulls the
reference; otherwise does nothing.  It touches no timer. -/
def disconnect (s : WSState) : WSState :=
  match s.socket with
  | some _ =>
      { s with disconnectedManually := true
               heartBeatOn := false
               socket := none }
  | none => s

/-- One pending reconnect setTimeout callback fires: it consumes the timer
and calls connect. -/
def reconnectTimerFires (s : WSState) : ConnectResult :=
  if 0 < s.pendingReconnectTimers then
    connect { s with pendingReconnectTimers := s.pendingReconnectTimers - 1 }
  else ⟨s, false⟩

/-- Method onData: stores the given function in the data callback slot. -/
def onData (s : WSState) : WSState :=
  { s with onDataCallback := CbSlot.func }

/-- Method onOrder: stores the given function in the order callback slot. -/
def onOrder (s : WSState) : WSState :=
  { s with onOrderCallback := CbSlot.func }

/-- An inbound text frame, abstracted by the outcome of JSON.parse: either the
text fails to decode, or it decodes to an object whose discriminant field t is
the given optional string (none when the field is absent). -/
inductive Inbound
  | malformed
  | frame (t : Option String)
deriving DecidableEq, Repr

/-- Observable outcome of one run of the onmessage handler. -/
inductive MessageOutcome
  | raisedDecodeError
  | raisedTypeError
  | invokedData (t : Option String)
  | invokedOrder (t : Option String)
  | logged
  | ignored
deriving DecidableEq, Repr

/-- The market data discriminants tested by the handler. -/
def dataKinds : List String := ["tk", "tf", "df", "dk"]

/-- JS test: the list of data kinds includes the discriminant. -/
def tIsData (t : Option String) : Bool :=
  match t with
  | some v => dataKinds.contains v
  | none => false

/-- JS test: the singleton list containing om includes the discriminant. -/
def tIsOrder (t : Option String) : Bool :=
  match t with
  | some v => v == "om"
  | none => false

/-- Handler socket.onmessage: JSON.parse is not wrapped in any try catch, so a
malformed frame raises the decode error out of the handler.  On a decoded
frame, the data branch tests the slot with a strict inequality against null
(true for an undefined slot, so an unregistered slot is then invoked, raising
a TypeError), the order branch tests truthiness, and otherwise the frame is
logged only in debug mode. -/
def onmessage (s : WSState) (m : Inbound) : MessageOutcome :=
  match m with
  | Inbound.malformed => MessageOutcome.raisedDecodeError
  | Inbound.frame t =>
      if tIsData t && !(s.onDataCallback == CbSlot.null) then
        match s.onDataCallback with
        | CbSlot.func => MessageOutcome.invokedData t
        | _ => MessageOutcome.raisedTypeError
      else if tIsOrder t && (s.onOrderCallback).truthy then
        MessageOutcome.invokedOrder t
      else if s.debug then MessageOutcome.logged
      else MessageOutcome.ignored

/-- Key built for one instrument: Exchange, a vertical bar, Token. -/
def subKey (i : Instrument) : String :=
  i.Exchange ++ "|" ++ i.Token

/-- The key string of a subscribe call: the hash join of the keys of the
instruments passed to that call. -/
def subString (instruments : List Instrument) : String :=
  String.intercalate "#" (instruments.map subKey)

/-- Errors thrown synchronously by subscribe. -/
inductive SubscribeError
  | notConnected
  | invalidInstruments
deriving DecidableEq, Repr

/-- Method subscribe: first throws when the socket is null or not OPEN, then
throws when the instrument list is empty, otherwise sends exactly one
subscribe frame built from the instruments of this call.  The returned state
is the successor state (subscribe assigns no field). -/
def subscribe (s : WSState) (instruments : List Instrument) :
    WSState × List OutFrame × Option SubscribeError :=
  match s.socket with
  | none => (s, [], some SubscribeError.notConnected)
  | some rs =>
      if rs ≠ ReadyState.OPEN then (s, [], some SubscribeError.notConnected)
      else if instruments.isEmpty then (s, [], some SubscribeError.invalidInstruments)
      else (s, [OutFrame.subscribeFrame (subString instruments)], none)

/-- The key builder written as the literal lambda of the source. -/
lemma subKey_def : subKey = fun i : Instrument => i.Exchange ++ "|" ++ i.Token := rfl

/-- A manager in steady Open state: socket OPEN, heartbeat interval set,
obtained after a successful connect and onopen on a fresh instance. -/
def openState : WSState :=
  { mkTradeSmartWS "u" "a" "s" with
      socket := some ReadyState.OPEN
      heartBeatOn := true }

/-- C10: a subscribe call in Open state with a non empty list sends exactly
one frame of discriminant t whose k field is the hash join of the
Exchange bar Token strings of exactly the instruments of that call, in input
order with duplicates preserved, and no field of the manager state changes. -/
theorem subscribe_sends_exact_call (s : WSState) (l : List Instrument)
    (h : s.socket = some ReadyState.OPEN) (hl : l ≠ []) :
    subscribe s l =
      (s, [OutFrame.subscribeFrame
            (String.intercalate "#" (l.map fun i => i.Exchange ++ "|" ++ i.Token))], none) := by
  cases l with
  | nil => exact absurd rfl hl
  | cons a t => simp [subscribe, h, subString, subKey_def]

/-- Witness for C10: a concrete subscribe with a duplicated instrument keeps
the duplicate and the input order in the key string and leaves the state
unchanged. -/
theorem subscribe_sends_exact_call_witness :
    subscribe openState [⟨"NSE", "22"⟩, ⟨"NSE", "22"⟩] =
      (openState, [OutFrame.subscribeFrame "NSE|22#NSE|22"], none) := by
  have h := subscribe_sends_exact_call openState [⟨"NSE", "22"⟩, ⟨"NSE", "22"⟩]
    rfl (by decide)
  simpa using h

/-- C5: subscribe throws the not connected error when the socket is null or
not OPEN, and the invalid instruments error when called in Open state with an
empty list; in both failure cases no frame is sent and the state is
unchanged. -/
theorem subscribe_error_cases (s : WSState) (l : List Instrument) :
    (s.socket ≠ some ReadyState.OPEN →
        subscribe s l = (s, [], some SubscribeError.notConnected)) ∧
    (s.socket = some ReadyState.OPEN → l = [] →
        subscribe s l = (s, [], some SubscribeError.invalidInstruments)) := by
  constructor
  · intro h
    cases hs : s.socket with
    | none => simp [subscribe, hs]
    | some rs =>
        have hrs : rs ≠ ReadyState.OPEN := by
          intro e
          exact h (e ▸ hs)
        simp [subscribe, hs, hrs]
  · intro h hl
    subst hl
    simp [subscribe, h]

/-- Witness for C5: a fresh instance (socket null) rejects a valid list with
the not connected error, and an Open instance rejects the empty list with the
invalid instruments error. -/
theorem subscribe_error_cases_witness :
    subscribe (mkTradeSmartWS "u" "a" "s") [⟨"NSE", "22"⟩] =
      (mkTradeSmartWS "u" "a" "s", [], some SubscribeError.notConnected) ∧
    subscribe openState [] = (openState, [], some SubscribeError.invalidInstruments) :=
  ⟨(subscribe_error_cases (mkTradeSmartWS "u" "a" "s") [⟨"NSE", "22"⟩]).1 (by decide),
   (subscribe_error_cases openState []).2 rfl rfl⟩

/-- The manager together with the number of WebSocket objects that have been
constructed and not yet closed.  The class holds only the latest reference in
its socket field; a previously constructed socket stays live (its handlers
stay attached) until its own close, which no line of connect performs. -/
structure ManagerWorld where
  ws : WSState
  liveTransports : Nat
deriving DecidableEq, Repr

/-- Method connect at the transport instance level: when the in flight flag
is clear it constructs a new WebSocket and overwrites the socket reference;
no code path of connect closes or releases the previously referenced socket,
so the count of live transports only grows. -/
def connectW (w : ManagerWorld) : ManagerWorld × Bool :=
  let r := connect w.ws
  ({ ws := r.state
     liveTransports := if r.created then w.liveTransports + 1 else w.liveTransports },
   r.created)

/-- The world in the reachable steady Open state: the connect promise has
resolved and its finally clause has cleared the in flight flag, one socket is
live. -/
def openWorld : ManagerWorld :=
  { ws := openState
    liveTransports := 1 }

/-- A world while a connect is in flight on a fresh instance whose socket has
been constructed. -/
def inFlightWorld : ManagerWorld :=
  { ws := { mkTradeSmartWS "u" "a" "s" with socketConnecting := true }
    liveTransports := 1 }

/-- Counterexample for C9: in the reachable steady Open state (in flight flag
clear, one live transport) a further connect call constructs a second
WebSocket without closing the first, leaving two live transport instances,
refuting the clause that at most one Transport instance exists at any time. -/
theorem connect_second_transport_cex :
    (connectW openWorld).2 = true ∧
    (connectW openWorld).1.liveTransports = 2 ∧
    ¬ (connectW openWorld).1.liveTransports ≤ 1 :=
  ⟨rfl, rfl, by decide⟩

/-- C9 amended: a connect call made while a previous connect is in flight
returns at once with the state unchanged and without constructing a
transport; but a connect call made while the flag is clear always constructs
a new transport and overwrites the socket reference without closing the
previous socket, so the number of live transport instances grows by one and
more than one can exist at a time. -/
theorem connect_guard_amended (w : ManagerWorld) :
    (w.ws.socketConnecting = true → connectW w = (w, false)) ∧
    (w.ws.socketConnecting = false →
      (connectW w).2 = true ∧
      (connectW w).1.liveTransports = w.liveTransports + 1) := by
  constructor
  · intro h
    simp [connectW, connect, h]
  · intro h
    simp [connectW, connect, h]

/-- Witness for the amended C9: with the flag set, connect changes nothing
and creates nothing; with the flag clear in the Open steady state, it creates
a second live transport. -/
theorem connect_guard_amended_witness :
    connectW inFlightWorld = (inFlightWorld, false) ∧
    (connectW openWorld).1.liveTransports = 1 + 1 :=
  ⟨(connect_guard_amended inFlightWorld).1 rfl,
   ((connect_guard_amended openWorld).2 rfl).2⟩

/-- C8: the onopen handler resets the reconnect counter to 0, installs the
heartbeat, sends exactly one frame, namely the auth frame carrying the
stored credentials, and resolves the pending connect promise; the
constructor stores the credentials it is given. -/
theorem onopen_effects (s : WSState) :
    (onopen s).state.currentReconnectAttempts = 0 ∧
    (onopen s).state.heartBeatOn = true ∧
    (onopen s).frames = [OutFrame.auth s.uid s.actid s.susertoken] ∧
    (onopen s).frames.length = 1 ∧
    (onopen s).resolved = true ∧
    ∀ u a k : String, (mkTradeSmartWS u a k).uid = u ∧
      (mkTradeSmartWS u a k).actid = a ∧ (mkTradeSmartWS u a k).susertoken = k := by
  refine ⟨rfl, rfl, rfl, rfl, rfl, fun u a k => ⟨rfl, rfl, rfl⟩⟩

/-- C7: one heartbeat interval tick sends exactly one heartbeat frame when the
interval is installed and the socket is OPEN, and no frame in any state whose
socket is not OPEN; onopen installs the interval, the onclose handler and a
disconnect with a live socket clear it. -/
theorem heartbeat_only_while_open (s : WSState) :
    (s.heartBeatOn = true → s.socket = some ReadyState.OPEN →
        heartBeatTick s = [OutFrame.heartbeat]) ∧
    (s.socket ≠ some ReadyState.OPEN → heartBeatTick s = []) ∧
    (onopen s).state.heartBeatOn = true ∧
    (onclose s).heartBeatOn = false ∧
    (s.socket ≠ none → (disconnect s).heartBeatOn = false) := by
  refine ⟨?_, ?_, rfl, ?_, ?_⟩
  · intro hb hs
    simp [heartBeatTick, hb, hs]
  · intro hs
    cases h : s.socket with
    | none => simp [heartBeatTick, h]
    | some rs =>
        have hrs : rs ≠ ReadyState.OPEN := by
          intro e
          exact hs (e ▸ h)
        simp [heartBeatTick, h, hrs]
  · simp only [onclose, clearHeartBeat, attemptReconnect]
    split
    · rfl
    · split <;> rfl
  · intro hs
    cases h : s.socket with
    | none => exact absurd h hs
    | some rs => simp [disconnect, h]

/-- Witness for C7: the Open steady state emits one heartbeat frame per tick,
and the same state with a closed socket emits none. -/
theorem heartbeat_only_while_open_witness :
    heartBeatTick openState = [OutFrame.heartbeat] ∧
    heartBeatTick { openState with socket := some ReadyState.CLOSED } = [] :=
  ⟨(heartbeat_only_while_open openState).1 rfl rfl,
   (heartbeat_only_while_open { openState with socket := some ReadyState.CLOSED }).2.1
     (by decide)⟩

/-- Counterexample for C3: a frame whose text fails to decode makes the
onmessage handler raise the decode error, an outcome distinct from the two
discard outcomes, so the frame is not merely discarded or logged. -/
theorem malformed_frame_raises_cex :
    onmessage openState Inbound.malformed = MessageOutcome.raisedDecodeError ∧
    MessageOutcome.raisedDecodeError ≠ MessageOutcome.ignored ∧
    MessageOutcome.raisedDecodeError ≠ MessageOutcome.logged :=
  ⟨rfl, by decide, by decide⟩

/-- C3 amended: in every state, a frame whose text fails to decode as JSON
makes the onmessage handler raise the decode error out of the handler; the
parse is not wrapped in any try catch, and the frame reaches no callback. -/
theorem malformed_frame_raises (s : WSState) (m : Inbound) :
    m = Inbound.malformed → onmessage s m = MessageOutcome.raisedDecodeError := by
  intro h
  subst h
  rfl

/-- Witness for the amended C3 at a concrete state. -/
theorem malformed_frame_raises_witness :
    onmessage openState Inbound.malformed = MessageOutcome.raisedDecodeError :=
  malformed_frame_raises openState Inbound.malformed rfl

/-- C4: routing of decoded frames.  With a registered data callback a tk frame
invokes the data callback; with only a registered order callback an om frame
invokes the order callback and not the data callback; an unknown discriminant
invokes nothing; but a market data frame received while no data callback was
ever registered makes the handler invoke the undefined slot (the strict
inequality against null is true for an undefined slot), raising a TypeError
instead of skipping the frame. -/
theorem onmessage_routing_and_undef_data_slot :
    onmessage (onData (mkTradeSmartWS "u" "a" "s")) (Inbound.frame (some "tk")) =
      MessageOutcome.invokedData (some "tk") ∧
    onmessage (onOrder (mkTradeSmartWS "u" "a" "s")) (Inbound.frame (some "om")) =
      MessageOutcome.invokedOrder (some "om") ∧
    onmessage (onOrder (mkTradeSmartWS "u" "a" "s")) (Inbound.frame (some "xx")) =
      MessageOutcome.ignored ∧
    onmessage (mkTradeSmartWS "u" "a" "s") (Inbound.frame (some "om")) =
      MessageOutcome.ignored ∧
    onmessage (mkTradeSmartWS "u" "a" "s") (Inbound.frame (some "tk")) =
      MessageOutcome.raisedTypeError :=
  ⟨rfl, rfl, rfl, rfl, rfl⟩

/-- Counterexample for C1: the manager keeps no registry of subscribed keys.
After a first subscribe for NSE bar 1 (which leaves the state unchanged), a
second subscribe for BSE bar 2 sends a key string containing only that call's
key, not the two element union in either order; and the onopen handler run on
reconnect sends only the auth frame, no subscribe frame. -/
theorem no_registry_cex :
    subscribe openState [⟨"NSE", "1"⟩] =
      (openState, [OutFrame.subscribeFrame "NSE|1"], none) ∧
    subscribe openState [⟨"BSE", "2"⟩] =
      (openState, [OutFrame.subscribeFrame "BSE|2"], none) ∧
    "BSE|2" ≠ "NSE|1#BSE|2" ∧
    "BSE|2" ≠ "BSE|2#NSE|1" ∧
    (onopen openState).frames = [OutFrame.auth "u" "a" "s"] ∧
    (∀ k, OutFrame.auth "u" "a" "s" ≠ OutFrame.subscribeFrame k) :=
  ⟨rfl, rfl, by decide, by decide, rfl, fun k h => OutFrame.noConfusion h⟩

/-- C1 amended: each successful subscribe call sends exactly one frame whose
key string is the hash join of only that call's instrument keys, the manager
state (there is no registry field) is unchanged, and after a reconnect the
onopen handler automatically sends only the auth frame, never a subscribe
frame. -/
theorem subscribe_no_registry_amended (s : WSState) (l : List Instrument)
    (h : s.socket = some ReadyState.OPEN) (hl : l ≠ []) :
    (subscribe s l).1 = s ∧
    (subscribe s l).2.1 = [OutFrame.subscribeFrame (subString l)] ∧
    (onopen s).frames = [OutFrame.auth s.uid s.actid s.susertoken] ∧
    ∀ f ∈ (onopen s).frames, ∀ k, f ≠ OutFrame.subscribeFrame k := by
  cases l with
  | nil => exact absurd rfl hl
  | cons a t =>
      refine ⟨?_, ?_, rfl, ?_⟩
      · simp [subscribe, h]
      · simp [subscribe, h]
      · intro f hf k
        simp only [onopen, List.mem_singleton] at hf
        subst hf
        exact fun e => OutFrame.noConfusion e

/-- Witness for the amended C1 at a concrete Open state and call. -/
theorem subscribe_no_registry_amended_witness :
    (subscribe openState [⟨"NSE", "1"⟩]).2.1 = [OutFrame.subscribeFrame "NSE|1"] := by
  have h := (subscribe_no_registry_amended openState [⟨"NSE", "1"⟩] rfl (by decide)).2.1
  simpa using h

/-- The manager state after an unexpected transport close in the Open steady
state: the socket reference still points at the now closed socket and the
onclose handler has run, scheduling one reconnect timer. -/
def afterUnexpectedDrop : WSState :=
  onclose { openState with socket := some ReadyState.CLOSED }

/-- Counterexample for C2: after an unexpected drop one reconnect timer is
pending; calling disconnect sets the manual flag but leaves the timer
pending (the source never stores the setTimeout handle), and when the timer
fires, connect runs and constructs a new transport, so a further connect
attempt does occur after the manual disconnect; once that connection opens,
the heartbeat interval is installed again and ticks send heartbeat frames. -/
theorem disconnect_timer_not_cancelled_cex :
    afterUnexpectedDrop.pendingReconnectTimers = 1 ∧
    (disconnect afterUnexpectedDrop).disconnectedManually = true ∧
    (disconnect afterUnexpectedDrop).pendingReconnectTimers = 1 ∧
    (reconnectTimerFires (disconnect afterUnexpectedDrop)).created = true ∧
    (reconnectTimerFires (disconnect afterUnexpectedDrop)).state.disconnectedManually
      = false ∧
    heartBeatTick (onopen
      { (reconnectTimerFires (disconnect afterUnexpectedDrop)).state with
          socket := some ReadyState.OPEN }).state = [OutFrame.heartbeat] :=
  ⟨rfl, rfl, rfl, rfl, rfl, rfl⟩

/-- C2 amended: disconnect with a live socket reference sets the manual flag
and stops the heartbeat, and the subsequent close event of that socket
schedules no reconnect; but disconnect cancels no pending reconnect backoff
timer, and such a timer, firing while no connect is in flight, still performs
a connect attempt that constructs a new transport and clears the manual
disconnect flag. -/
theorem disconnect_manual_amended (s : WSState) (rs : ReadyState)
    (hs : s.socket = some rs) :
    (disconnect s).disconnectedManually = true ∧
    (disconnect s).heartBeatOn = false ∧
    onclose (disconnect s) = disconnect s ∧
    (disconnect s).pendingReconnectTimers = s.pendingReconnectTimers ∧
    (s.socketConnecting = false → 0 < s.pendingReconnectTimers →
      (reconnectTimerFires (disconnect s)).created = true) := by
  refine ⟨?_, ?_, ?_, ?_, ?_⟩
  · simp [disconnect, hs]
  · simp [disconnect, hs]
  · simp [disconnect, hs, onclose, clearHeartBeat]
  · simp [disconnect, hs]
  · intro hc ht
    simp [disconnect, hs, reconnectTimerFires, connect, ht, hc]

/-- Witness for the amended C2: concrete state with one pending timer. -/
theorem disconnect_manual_amended_witness :
    (reconnectTimerFires (disconnect
      { openState with pendingReconnectTimers := 1 })).created = true :=
  (disconnect_manual_amended { openState with pendingReconnectTimers := 1 }
      ReadyState.OPEN rfl).2.2.2.2 rfl (by decide)

/-- One full cycle against a transport that always fails to open: a pending
reconnect timer fires and runs connect; the new socket never opens, errors
and closes; the finally clause clears the in flight flag and the onclose
handler runs on the closed socket.  Returns the successor state and whether a
connect attempt (transport construction) happened in this cycle. -/
def failingRound (s : WSState) : WSState × Bool :=
  if 0 < s.pendingReconnectTimers then
    let c := connect { s with pendingReconnectTimers := s.pendingReconnectTimers - 1 }
    let sFailed := { c.state with socketConnecting := false
                                  socket := some ReadyState.CLOSED }
    (onclose sFailed, c.created)
  else (s, false)

/-- Number of connect attempts made in the given number of event loop cycles
against the always failing transport. -/
def countAttempts : WSState → Nat → Nat
  | _, 0 => 0
  | s, f + 1 =>
      (if (failingRound s).2 then 1 else 0) + countAttempts (failingRound s).1 f

/-- Manager state inside the failing reconnect loop: configured maximum N,
current counter c, one reconnect timer pending, socket closed, nothing in
flight. -/
def loopState (N c : Nat) : WSState :=
  { mkTradeSmartWS "u" "a" "s" with
      socket := some ReadyState.CLOSED
      reconnectAttempts := N
      currentReconnectAttempts := c
      pendingReconnectTimers := 1 }

/-- Manager state right after the initial connect attempt has failed and its
close event is about to be handled: counter still 0, no timer pending. -/
def afterInitialFailure (N : Nat) : WSState :=
  { loopState N 0 with pendingReconnectTimers := 0 }

/-- A failing cycle below the maximum: one attempt happens and the counter
advances. -/
lemma failingRound_loopState_lt {N c : Nat} (h : c < N) :
    failingRound (loopState N c) = (loopState N (c + 1), true) := by
  simp [failingRound, connect, onclose, clearHeartBeat, attemptReconnect,
    loopState, mkTradeSmartWS, h]

/-- A failing cycle at the maximum: one last attempt happens and no further
timer is scheduled. -/
lemma failingRound_loopState_ge {N c : Nat} (h : ¬ c < N) :
    failingRound (loopState N c) =
      ({ loopState N c with pendingReconnectTimers := 0 }, true) := by
  simp [failingRound, connect, onclose, clearHeartBeat, attemptReconnect,
    loopState, mkTradeSmartWS, h]

/-- With no pending timer nothing ever happens again. -/
lemma countAttempts_no_timer (s : WSState) (h : s.pendingReconnectTimers = 0) :
    ∀ f, countAttempts s f = 0 := by
  intro f
  induction f with
  | zero => rfl
  | succ f ih => simp [countAttempts, failingRound, h, ih]

/-- Exact count of attempts from inside the loop. -/
lemma countAttempts_loopState {N : Nat} :
    ∀ f c, c ≤ N → N - c < f → countAttempts (loopState N c) f = N - c + 1 := by
  intro f
  induction f with
  | zero =>
      intro c hc hf
      omega
  | succ f ih =>
      intro c hc hf
      by_cases h : c < N
      · have step := failingRound_loopState_lt (N := N) (c := c) h
        have ihc := ih (c + 1) (by omega) (by omega)
        simp [countAttempts, step, ihc]
        omega
      · have step := failingRound_loopState_ge (N := N) (c := c) h
        have dead : countAttempts { loopState N c with pendingReconnectTimers := 0 } f = 0 :=
          countAttempts_no_timer _ rfl f
        simp [countAttempts, step, dead]
        omega

/-- The close handler of the initial failed connect schedules the first
reconnect. -/
lemma onclose_afterInitialFailure {N : Nat} (hN : 0 < N) :
    onclose (afterInitialFailure N) = loopState N 1 := by
  simp [onclose, clearHeartBeat, attemptReconnect, afterInitialFailure,
    loopState, mkTradeSmartWS, hN]

/-- C6: with configured maximum N and a transport that always fails to open,
after the initial failed connect exactly N reconnect attempts are performed,
however many further event loop cycles elapse; once the counter reaches N no
further attempt is made and every later cycle is inert. -/
theorem reconnect_attempts_bounded (N fuel : Nat) (hN : 0 < N) (hf : N ≤ fuel) :
    countAttempts (onclose (afterInitialFailure N)) fuel = N := by
  rw [onclose_afterInitialFailure hN]
  have h := countAttempts_loopState (N := N) fuel 1 (by omega) (by omega)
  omega

/-- Witness for C6 with the configuration of the spec example: maximum 2,
five cycles available, exactly 2 attempts. -/
theorem reconnect_attempts_bounded_witness :
    countAttempts (onclose (afterInitialFailure 2)) 5 = 2 :=
  reconnect_attempts_bounded 2 5 (by decide) (by decide)

end TradeSmartWS
